import Mathlib

/-!
Verification development for the matter-rs data-model fragment:
the Level Control cluster (`cluster_level_control.rs`) and the On/Off
cluster (`cluster_on_off.rs`).

The concrete cluster code is embedded directly from the two Rust source
files.  The base data-model types (`Attribute`, `Cluster`, the TLV element
abstraction, status codes) live outside the provided sources, so they are
modelled from the specification; each such definition carries a
`Modelled from the spec:` doc comment.
-/

set_option linter.unusedVariables false

/-- Modelled from the spec: the crate-level `Error` type (`error.rs` is not
in the provided sources).  Only the variants used by the two cluster files
and by the Cluster base operations of spec section 4.2 are modelled. -/
inductive Error where
  | Invalid
  | InvalidData
  | AttributeNotFound
  | InvalidDataType
  | AccessDenied
deriving DecidableEq, Repr

/-- The Interaction Model status codes of spec section 7.  The misspelling
`Sucess` is the source's own (`IMStatusCode::Sucess`). -/
inductive IMStatusCode where
  | Sucess
  | Failure
  | UnsupportedEndpoint
  | UnsupportedCluster
  | UnsupportedCommand
  | UnsupportedAttribute
  | UnsupportedAccess
  | UnsupportedRead
  | UnsupportedWrite
  | InvalidDataType
  | ConstraintError
  | Timeout
  | Busy
deriving DecidableEq, Repr

/-- Modelled from the spec: the attribute value union (spec section 3).
Only the variants the two cluster files use are included, plus the
`Custom` sentinel.  Machine integers are Nat with explicit bounds at the
operations that create them. -/
inductive AttrValue where
  | Bool : Bool → AttrValue
  | Uint8 : Nat → AttrValue
  | Uint16 : Nat → AttrValue
  | Custom : AttrValue
deriving DecidableEq, Repr

/-- True when the two values are the same variant of the union; the base
cluster's writes are type-preserving (spec section 4.1). -/
def sameVariant : AttrValue → AttrValue → Bool
  | .Bool _, .Bool _ => true
  | .Uint8 _, .Uint8 _ => true
  | .Uint16 _, .Uint16 _ => true
  | .Custom, .Custom => true
  | _, _ => false

/-- Modelled from the spec: the access bitset over
Read, Write, Invoke, NeedView, NeedOperate, NeedManage, NeedAdmin. -/
structure Access where
  read : Bool
  write : Bool
  invoke : Bool
  need_view : Bool
  need_operate : Bool
  need_manage : Bool
  need_admin : Bool
deriving DecidableEq, Repr

/-- Modelled from the spec: `Access::RV` = Read plus NeedView. -/
def Access.RV : Access :=
  { read := true, write := false, invoke := false, need_view := true,
    need_operate := false, need_manage := false, need_admin := false }

/-- Modelled from the spec: the quality bitset over
Persistent, Nullable, Fixed, Scene, Reportable. -/
structure Quality where
  persistent : Bool
  nullable : Bool
  fixed : Bool
  scene : Bool
  reportable : Bool
deriving DecidableEq, Repr

/-- Modelled from the spec: `Quality::PERSISTENT`. -/
def Quality.PERSISTENT : Quality :=
  { persistent := true, nullable := false, fixed := false,
    scene := false, reportable := false }

/-- Modelled from the spec: one addressable datum within a cluster
(spec section 3): a 16-bit id, a tagged value, access and quality bits. -/
structure Attribute where
  id : Nat
  value : AttrValue
  access : Access
  quality : Quality
deriving DecidableEq, Repr

/-- Modelled from the spec: `Attribute::new` fails when the access and
quality bits are inconsistent (Fixed together with Write), spec 4.1. -/
def Attribute.new (id : Nat) (value : AttrValue) (access : Access)
    (quality : Quality) : Except Error Attribute :=
  if quality.fixed && access.write then .error .InvalidData
  else .ok { id := id, value := value, access := access, quality := quality }

/-- Modelled from the spec: ids 0xF000 to 0xFFFE are system attributes. -/
def Attribute.is_system_attr (id : Nat) : Bool :=
  decide (0xF000 ≤ id) && decide (id ≤ 0xFFFE)

/-- Modelled from the spec: the base cluster (spec section 4.2): cluster
id, ordered attribute list, feature map and revision.  `dirty` records the
advisory persistence markers (one entry per successful write to a
Persistent attribute), spec 4.2 last paragraph. -/
structure Cluster where
  id : Nat
  attributes : List Attribute
  dirty : List Nat
  feature_map : Nat
  cluster_revision : Nat
deriving DecidableEq, Repr

/-- Modelled from the spec: `Cluster::new` initialises FeatureMap to 0,
ClusterRevision to 1 and an empty attribute list. -/
def Cluster.new (id : Nat) : Cluster :=
  { id := id, attributes := [], dirty := [], feature_map := 0,
    cluster_revision := 1 }

/-- Modelled from the spec: `get_attribute` returns the sole attribute for
an id, or fails. -/
def Cluster.get_attribute (c : Cluster) (id : Nat) : Option Attribute :=
  c.attributes.find? (fun a => a.id == id)

/-- Modelled from the spec: `add_attribute` appends; a duplicate id fails. -/
def Cluster.add_attribute (c : Cluster) (a : Attribute) : Except Error Cluster :=
  if c.attributes.any (fun b => b.id == a.id) then .error .Invalid
  else .ok { c with attributes := c.attributes ++ [a] }

/-- Modelled from the spec: `add_attributes` adds each in order. -/
def Cluster.add_attributes (c : Cluster) : List Attribute → Except Error Cluster
  | [] => .ok c
  | a :: rest =>
    match c.add_attribute a with
    | .error e => .error e
    | .ok c2 => c2.add_attributes rest

/-- Modelled from the spec: `read_attribute_raw` returns the stored value
for an id when the attribute exists. -/
def Cluster.read_attribute_raw (c : Cluster) (id : Nat) : Option AttrValue :=
  (c.get_attribute id).map Attribute.value

/-- Modelled from the spec: `write_attribute_raw` (spec 4.2): missing id
fails with AttributeNotFound, a variant mismatch with InvalidDataType, a
Fixed attribute with AccessDenied; a successful write to a Persistent
attribute records a dirty marker. -/
def Cluster.write_attribute_raw (c : Cluster) (id : Nat) (v : AttrValue) :
    Except Error Cluster :=
  match c.get_attribute id with
  | none => .error .AttributeNotFound
  | some a =>
    if sameVariant a.value v = false then .error .InvalidDataType
    else if a.quality.fixed then .error .AccessDenied
    else .ok { c with
      attributes := c.attributes.map
        (fun b => if b.id == id then { b with value := v } else b),
      dirty := if a.quality.persistent then c.dirty ++ [id] else c.dirty }

/-- The TLV element abstraction consumed by the cluster files (spec
section 6): a positional container entered with `enter`, and typed scalar
extractors. -/
inductive TLVElement where
  | container : List TLVElement → TLVElement
  | u8val : Nat → TLVElement
  | u16val : Nat → TLVElement
  | boolval : Bool → TLVElement
  | nullval : TLVElement

/-- `enter` yields the child elements of a container, otherwise fails. -/
def TLVElement.enter : TLVElement → Option (List TLVElement)
  | .container elems => some elems
  | _ => none

/-- The `u8` typed extractor: fails with InvalidData on a variant
mismatch; a wire u8 is below 256. -/
def TLVElement.u8 : TLVElement → Except Error Nat
  | .u8val n => .ok (n % 256)
  | _ => .error .InvalidData

/-- The result of a command handler: the source's
`Result<(), IMStatusCode>`, whose success arm `Err(Sucess)` is the
source's own idiom (spec section 9). -/
inductive CmdResult where
  | ok : CmdResult
  | err : IMStatusCode → CmdResult
deriving DecidableEq, Repr

/-- The command path of a request (spec section 6); the cluster handlers
consult only the leaf (the command id). -/
structure CmdPath where
  endpoint : Option Nat
  cluster : Nat
  leaf : Option Nat

/-- The command request consumed by `handle_command` (spec section 6).
The transaction handle is modelled by the completion flag each handler
outcome reports. -/
structure CommandReq where
  path : CmdPath
  data : TLVElement

/-- Modelled from the spec: the `From<Error> for IMStatusCode` conversion
used by the `?` operator in the handlers (`error.rs` is not in the
provided sources); internal errors downgrade to `Failure` (spec 7). -/
def errToIm : Error → IMStatusCode
  | _ => .Failure

/-- Modelled from the spec: decoding a TLV element as the variant of an
existing attribute value (spec 4.2, `write_attribute_from_tlv`): variant
mismatch gives InvalidDataType, overflow of the bounded integer gives
ConstraintError. -/
def AttrValue.decodeAs : AttrValue → TLVElement → Except IMStatusCode AttrValue
  | .Uint8 _, .u8val n => if n < 256 then .ok (.Uint8 n) else .error .ConstraintError
  | .Uint16 _, .u16val n => if n < 65536 then .ok (.Uint16 n) else .error .ConstraintError
  | .Bool _, .boolval b => .ok (.Bool b)
  | _, _ => .error .InvalidDataType

/-- Modelled from the spec: `write_attribute_from_tlv` decodes the element
as the attribute's variant and performs the type-preserving write. -/
def Cluster.write_attribute_from_tlv (c : Cluster) (id : Nat) (t : TLVElement) :
    Except IMStatusCode Cluster :=
  match c.get_attribute id with
  | none => .error .UnsupportedAttribute
  | some a =>
    match a.value.decodeAs t with
    | .error e => .error e
    | .ok v =>
      match c.write_attribute_raw id v with
      | .error _ => .error .Failure
      | .ok c2 => .ok c2

namespace LevelControl

/-- `pub const ID: u32 = 0x0008` of `cluster_level_control.rs`. -/
def ID : Nat := 0x0008

/-- The attribute ids of the Level Control `Attributes` enum. -/
def Attributes.CurrentLevel : Nat := 0x0000

def Attributes.RemainingTime : Nat := 0x0001

def Attributes.MinLevel : Nat := 0x0002

def Attributes.MaxLevel : Nat := 0x0003

def Attributes.OnLevel : Nat := 0x0011

def Attributes.Options : Nat := 0x000F

def Attributes.StartUpCurrentLevel : Nat := 0x4000

/-- The `MoveMode` enum of `cluster_level_control.rs`. -/
inductive MoveMode where
  | Up
  | Down
deriving DecidableEq, Repr

/-- `MoveMode::from_int`: 0 is Up, anything else Down. -/
def MoveMode.from_int (src : Nat) : MoveMode :=
  if src == 0 then .Up else .Down

/-- The `StepMode` enum of `cluster_level_control.rs`. -/
inductive StepMode where
  | Up
  | Down
deriving DecidableEq, Repr

/-- `StepMode::from_int`: 0 is Up, anything else Down. -/
def StepMode.from_int (src : Nat) : StepMode :=
  if src == 0 then .Up else .Down

/-- The Level Control `Commands` enum, discriminants 0x00 to 0x08. -/
inductive Commands where
  | MoveToLevel
  | Move
  | Step
  | Stop
  | MoveToLevelWithOnOff
  | MoveWithOnOff
  | StepWithOnOff
  | StopWithOnOff
  | MoveToClosestFrequency
deriving DecidableEq, Repr

/-- The derived `FromPrimitive` conversion for the Level Control
`Commands` enum: ids 0 to 8 map to the variants in order, anything else
to none. -/
def Commands.from_u32 : Nat → Option Commands
  | 0 => some .MoveToLevel
  | 1 => some .Move
  | 2 => some .Step
  | 3 => some .Stop
  | 4 => some .MoveToLevelWithOnOff
  | 5 => some .MoveWithOnOff
  | 6 => some .StepWithOnOff
  | 7 => some .StopWithOnOff
  | 8 => some .MoveToClosestFrequency
  | _ => none

end LevelControl

/-- The `LevelControlCluster` struct: a base cluster. -/
structure LevelControlCluster where
  base : Cluster
deriving DecidableEq, Repr

/-- `LevelControlCluster::new`: a base cluster of id 0x0008 populated with
the five attributes the source constructs (CurrentLevel, OnLevel,
MinLevel, MaxLevel, StartUpCurrentLevel); the source adds neither a
RemainingTime nor an Options attribute. -/
def LevelControlCluster.new : Except Error LevelControlCluster := do
  let base := Cluster.new LevelControl.ID
  let a0 ← Attribute.new LevelControl.Attributes.CurrentLevel
    (.Uint8 0) Access.RV Quality.PERSISTENT
  let a1 ← Attribute.new LevelControl.Attributes.OnLevel
    (.Uint8 0) Access.RV Quality.PERSISTENT
  let a2 ← Attribute.new LevelControl.Attributes.MinLevel
    (.Uint8 0) Access.RV Quality.PERSISTENT
  let a3 ← Attribute.new LevelControl.Attributes.MaxLevel
    (.Uint8 254) Access.RV Quality.PERSISTENT
  let a4 ← Attribute.new LevelControl.Attributes.StartUpCurrentLevel
    (.Uint8 0x00) Access.RV Quality.PERSISTENT
  let base ← base.add_attributes [a0, a1, a2, a3, a4]
  return { base := base }

/-- `LevelControlCluster::move_level`: both arms only log and return
`Err(Sucess)`; no attribute is written. -/
def LevelControlCluster.move_level (c : LevelControlCluster)
    (move_mode : LevelControl.MoveMode) (rate : Nat) :
    LevelControlCluster × CmdResult :=
  match move_mode with
  | .Up => (c, .err .Sucess)
  | .Down => (c, .err .Sucess)

/-- `LevelControlCluster::step_level`: reads CurrentLevel, computes
`old + step_size` (Up) or `old - step_size` (Down) with u8 wraparound
(the release-mode semantics of the unchecked Rust arithmetic; a non-Uint8
stored value leaves `new_level` at its initialiser 0), writes the result
back and returns `Err(Sucess)`.  No clamping against MinLevel or MaxLevel
is performed. -/
def LevelControlCluster.step_level (c : LevelControlCluster)
    (step_mode : LevelControl.StepMode) (step_size : Nat) :
    LevelControlCluster × CmdResult :=
  match c.base.read_attribute_raw LevelControl.Attributes.CurrentLevel with
  | none => (c, .err (errToIm .AttributeNotFound))
  | some old_level =>
    match step_mode with
    | .Up =>
      let new_level : Nat :=
        match old_level with
        | .Uint8 old => (old + step_size) % 256
        | _ => 0
      match c.base.write_attribute_raw LevelControl.Attributes.CurrentLevel
        (.Uint8 new_level) with
      | .error _ => (c, .err .Failure)
      | .ok b => ({ base := b }, .err .Sucess)
    | .Down =>
      let new_level : Nat :=
        match old_level with
        | .Uint8 old => (old + 256 - step_size % 256) % 256
        | _ => 0
      match c.base.write_attribute_raw LevelControl.Attributes.CurrentLevel
        (.Uint8 new_level) with
      | .error _ => (c, .err .Failure)
      | .ok b => ({ base := b }, .err .Sucess)

/-- `LevelControlCluster::handle_move_to_lvl`: enters the container, takes
the level element and three further elements (transition time, options
mask, options override, all unprocessed), then writes CurrentLevel from
the level element.  A missing element yields InvalidDataType. -/
def LevelControlCluster.handle_move_to_lvl (c : LevelControlCluster)
    (cmd_data : TLVElement) : LevelControlCluster × CmdResult :=
  match cmd_data.enter with
  | none => (c, .err (errToIm .Invalid))
  | some (new_level :: _trans_time :: _options_mask :: _options_override :: _rest) =>
    match c.base.write_attribute_from_tlv LevelControl.Attributes.CurrentLevel
      new_level with
    | .error e => (c, .err e)
    | .ok b => ({ base := b }, .ok)
  | some _ => (c, .err .InvalidDataType)

/-- `LevelControlCluster::handle_move`: decodes move mode and rate as u8,
skips mask and override, then calls `move_level`. -/
def LevelControlCluster.handle_move (c : LevelControlCluster)
    (cmd_data : TLVElement) : LevelControlCluster × CmdResult :=
  match cmd_data.enter with
  | none => (c, .err (errToIm .Invalid))
  | some (m :: r :: _options_mask :: _options_override :: _rest) =>
    match m.u8 with
    | .error e => (c, .err (errToIm e))
    | .ok move_mode =>
      match r.u8 with
      | .error e => (c, .err (errToIm e))
      | .ok rate => c.move_level (LevelControl.MoveMode.from_int move_mode) rate
  | some _ => (c, .err (errToIm .Invalid))

/-- `LevelControlCluster::handle_stop`: skips mask and override, then
writes `Uint8 0` to the RemainingTime attribute id; a write failure is
mapped to `Failure`, success returns `Err(Sucess)`. -/
def LevelControlCluster.handle_stop (c : LevelControlCluster)
    (cmd_data : TLVElement) : LevelControlCluster × CmdResult :=
  match cmd_data.enter with
  | none => (c, .err (errToIm .Invalid))
  | some (_options_mask :: _options_override :: _rest) =>
    match c.base.write_attribute_raw LevelControl.Attributes.RemainingTime
      (.Uint8 0) with
    | .error _ => (c, .err .Failure)
    | .ok b => ({ base := b }, .err .Sucess)
  | some _ => (c, .err (errToIm .Invalid))

/-- `LevelControlCluster::handle_step`: decodes step mode and step size as
u8, takes mask, override and transition time, reads CurrentLevel, and
returns `Err(Sucess)` without writing anything: the `step_level` call in
the source is commented out. -/
def LevelControlCluster.handle_step (c : LevelControlCluster)
    (cmd_data : TLVElement) : LevelControlCluster × CmdResult :=
  match cmd_data.enter with
  | none => (c, .err (errToIm .Invalid))
  | some (sm :: ss :: _options_mask :: _options_override :: _transition_time :: _rest) =>
    match sm.u8 with
    | .error e => (c, .err (errToIm e))
    | .ok step_mode =>
      match ss.u8 with
      | .error e => (c, .err (errToIm e))
      | .ok step_size =>
        match c.base.read_attribute_raw LevelControl.Attributes.CurrentLevel with
        | none => (c, .err (errToIm .AttributeNotFound))
        | some _old_level => (c, .err .Sucess)
  | some _ => (c, .err (errToIm .Invalid))

/-- The `*WithOnOff` stubs each return `Err(Sucess)` without touching any
state. -/
def LevelControlCluster.handle_move_to_lvl_with_onoff (c : LevelControlCluster)
    (cmd_data : TLVElement) : LevelControlCluster × CmdResult :=
  (c, .err .Sucess)

def LevelControlCluster.handle_move_with_onoff (c : LevelControlCluster)
    (cmd_data : TLVElement) : LevelControlCluster × CmdResult :=
  (c, .err .Sucess)

def LevelControlCluster.handle_step_with_onoff (c : LevelControlCluster)
    (cmd_data : TLVElement) : LevelControlCluster × CmdResult :=
  (c, .err .Sucess)

def LevelControlCluster.handle_stop_with_onoff (c : LevelControlCluster)
    (cmd_data : TLVElement) : LevelControlCluster × CmdResult :=
  (c, .err .Sucess)

/-- `LevelControlCluster::handle_command`: a missing path leaf or an id the
`Commands` enum does not cover yields UnsupportedCommand; otherwise the
matching handler runs.  `MoveToClosestFrequency` returns `Err(Sucess)`
inline. -/
def LevelControlCluster.handle_command (c : LevelControlCluster)
    (cmd_req : CommandReq) : LevelControlCluster × CmdResult :=
  match cmd_req.path.leaf with
  | none => (c, .err .UnsupportedCommand)
  | some n =>
    match LevelControl.Commands.from_u32 n with
    | none => (c, .err .UnsupportedCommand)
    | some .MoveToLevel => c.handle_move_to_lvl cmd_req.data
    | some .Move => c.handle_move cmd_req.data
    | some .Step => c.handle_step cmd_req.data
    | some .Stop => c.handle_stop cmd_req.data
    | some .MoveToLevelWithOnOff => c.handle_move_to_lvl_with_onoff cmd_req.data
    | some .MoveWithOnOff => c.handle_move_with_onoff cmd_req.data
    | some .StepWithOnOff => c.handle_step_with_onoff cmd_req.data
    | some .StopWithOnOff => c.handle_stop_with_onoff cmd_req.data
    | some .MoveToClosestFrequency => (c, .err .Sucess)

namespace OnOff

/-- `pub const ID: u32 = 0x0006` of `cluster_on_off.rs`. -/
def ID : Nat := 0x0006

/-- The On/Off `Attributes` enum: only OnOff, id 0. -/
def Attributes.OnOff : Nat := 0x0

/-- The On/Off `Commands` enum. -/
inductive Commands where
  | Off
  | On
  | Toggle
deriving DecidableEq, BEq, Repr

/-- The derived `FromPrimitive` conversion for the On/Off `Commands`
enum: 0, 1 and 2 map to Off, On and Toggle, anything else to none. -/
def Commands.from_u32 : Nat → Option Commands
  | 0 => some .Off
  | 1 => some .On
  | 2 => some .Toggle
  | _ => none

end OnOff

/-- `attr_on_off_new`: the OnOff attribute, id 0, value `Bool(false)`,
access RV, quality PERSISTENT. -/
def attr_on_off_new : Except Error Attribute :=
  Attribute.new OnOff.Attributes.OnOff (.Bool false) Access.RV Quality.PERSISTENT

/-- The `UpdateData` shared-state block of `cluster_on_off.rs`. -/
structure UpdateData where
  on_off : Bool
  is_fresh : Bool
deriving DecidableEq, Repr

/-- `UpdateData::update_state`: stores the new on/off state and sets
`is_fresh` to true.  Nothing in the module ever sets `is_fresh` back to
false. -/
def UpdateData.update_state (u : UpdateData) (state : Bool) : UpdateData :=
  { u with on_off := state, is_fresh := true }

/-- The `OnOffCluster` struct.  The registered callbacks are `FnMut()`
closures whose bodies are opaque; each is modelled by the command name it
is registered under, and an invocation is recorded in the handler outcome
trace rather than executed. -/
structure OnOffCluster where
  base : Cluster
  callbacks : List OnOff.Commands
  update_state : UpdateData
deriving DecidableEq, Repr

/-- `OnOffCluster::new`: a base cluster of id 0x0006 holding the single
OnOff attribute, no callbacks, and shared state
`{ on_off: false, is_fresh: false }`. -/
def OnOffCluster.new : Except Error OnOffCluster := do
  let a ← attr_on_off_new
  let base ← (Cluster.new OnOff.ID).add_attribute a
  return { base := base, callbacks := [],
           update_state := { on_off := false, is_fresh := false } }

/-- `OnOffCluster::add_callback` pushes a callback registration. -/
def OnOffCluster.add_callback (s : OnOffCluster) (cmd : OnOff.Commands) :
    OnOffCluster :=
  { s with callbacks := s.callbacks ++ [cmd] }

/-- `OnOffCluster::run_callback` invokes every callback registered under
the command, in registration order; the result is the trace of fired
registrations. -/
def OnOffCluster.run_callback (s : OnOffCluster) (cmd : OnOff.Commands) :
    List OnOff.Commands :=
  s.callbacks.filter (fun cb => cb == cmd)

/-- What one `handle_command` invocation produced: the cluster after the
call, the returned `Result<(), IMStatusCode>`, the trace of fired
callbacks, and whether `cmd_req.trans.complete()` was called. -/
structure HandleOutcome where
  cluster : OnOffCluster
  result : CmdResult
  invoked : List OnOff.Commands
  completed : Bool
deriving DecidableEq, Repr

/-- `OnOffCluster::handle_command` of `cluster_on_off.rs`.  A missing leaf
or unknown id yields UnsupportedCommand.  The Off, On and Toggle arms each
begin with `read_attribute_raw(OnOff).unwrap()`; the `none` result models
that unwrap panicking. -/
def OnOffCluster.handle_command (s : OnOffCluster) (cmd_req : CommandReq) :
    Option HandleOutcome :=
  match cmd_req.path.leaf with
  | none => some { cluster := s, result := .err .UnsupportedCommand,
                   invoked := [], completed := false }
  | some n =>
    match OnOff.Commands.from_u32 n with
    | none => some { cluster := s, result := .err .UnsupportedCommand,
                     invoked := [], completed := false }
    | some .Off =>
      match s.base.read_attribute_raw OnOff.Attributes.OnOff with
      | none => none
      | some value =>
        if value = AttrValue.Bool true then
          match s.base.write_attribute_raw OnOff.Attributes.OnOff
            (.Bool false) with
          | .error _ => some { cluster := s, result := .err .Failure,
                               invoked := [], completed := false }
          | .ok b => some { cluster := { s with base := b },
                            result := .err .Sucess,
                            invoked := s.run_callback .Off, completed := true }
        else
          some { cluster := s, result := .err .Sucess,
                 invoked := s.run_callback .Off, completed := true }
    | some .On =>
      match s.base.read_attribute_raw OnOff.Attributes.OnOff with
      | none => none
      | some value =>
        if value = AttrValue.Bool false then
          match s.base.write_attribute_raw OnOff.Attributes.OnOff
            (.Bool true) with
          | .error _ => some { cluster := s, result := .err .Failure,
                               invoked := [], completed := false }
          | .ok b => some { cluster := { s with base := b },
                            result := .err .Sucess,
                            invoked := s.run_callback .On, completed := true }
        else
          some { cluster := s, result := .err .Sucess,
                 invoked := s.run_callback .On, completed := true }
    | some .Toggle =>
      match s.base.read_attribute_raw OnOff.Attributes.OnOff with
      | none => none
      | some stored =>
        let value : Bool :=
          match stored with
          | .Bool v => v
          | _ => false
        match s.base.write_attribute_raw OnOff.Attributes.OnOff
          (.Bool (!value)) with
        | .error _ => some { cluster := s, result := .err .Failure,
                             invoked := [], completed := false }
        | .ok b => some { cluster := { s with base := b },
                          result := .err .Sucess,
                          invoked := s.run_callback .Toggle, completed := true }

/-- The defensive read the Toggle arm performs on the stored value: a
stored bool is itself, any other variant counts as false. -/
def attrAsBool : AttrValue → Bool
  | .Bool v => v
  | _ => false

/-- What an attribute read emits through the encoder: a bare status, an
encoded value, or a delegation to the system or custom reader. -/
inductive ReadOutput where
  | status : IMStatusCode → ReadOutput
  | value : AttrValue → ReadOutput
  | system : Nat → ReadOutput
  | custom : Nat → ReadOutput
deriving DecidableEq, Repr

/-- `OnOffCluster::read_attribute` of `cluster_on_off.rs`.  The access
request is modelled by the predicate `allow`, applied to the target
permissions that `set_target_perms` installs.  After the access checks, a
system attribute delegates to the base reader; a non-Custom value is
served from the shared-state block when `is_fresh` is set and from the
stored attribute otherwise; a Custom value delegates to the custom
reader. -/
def OnOffCluster.read_attribute (s : OnOffCluster) (allow : Access → Bool)
    (attr_id : Nat) : ReadOutput :=
  match s.base.get_attribute attr_id with
  | none => .status .UnsupportedAttribute
  | some a =>
    let e0 := IMStatusCode.Sucess
    let e1 := if a.access.read = false then IMStatusCode.UnsupportedRead else e0
    let e2 := if allow a.access = false then IMStatusCode.UnsupportedAccess else e1
    if e2 ≠ IMStatusCode.Sucess then .status e2
    else if Attribute.is_system_attr attr_id then .system attr_id
    else if a.value ≠ AttrValue.Custom then
      if s.update_state.is_fresh then .value (.Bool s.update_state.on_off)
      else .value a.value
    else .custom attr_id

/-- One externally visible step of an `OnOffCluster`: a dispatched command
(that did not panic), a callback registration, or an asynchronous
shared-state update through `UpdateData::update_state`.  Attribute reads
take `&self` and are pure in the model, so they are not state steps. -/
inductive OnOffStep : OnOffCluster → OnOffCluster → Prop where
  | cmd (s : OnOffCluster) (req : CommandReq) (o : HandleOutcome)
      (h : OnOffCluster.handle_command s req = some o) : OnOffStep s o.cluster
  | add_callback (s : OnOffCluster) (c : OnOff.Commands) :
      OnOffStep s (s.add_callback c)
  | update (s : OnOffCluster) (b : Bool) :
      OnOffStep s { s with update_state := s.update_state.update_state b }

/-- The reachable states of an `OnOffCluster`: the cluster `new`
constructs, closed under steps. -/
inductive OnOffReachable : OnOffCluster → Prop where
  | new (s : OnOffCluster) (h : OnOffCluster.new = .ok s) : OnOffReachable s
  | step (s t : OnOffCluster) (hs : OnOffReachable s) (ht : OnOffStep s t) :
      OnOffReachable t

/-- The concrete cluster `LevelControlCluster::new` produces (see
`lc_new_eq`). -/
def lcDefault : LevelControlCluster :=
  { base :=
    { id := 0x0008,
      attributes :=
        [ { id := 0x0000, value := .Uint8 0, access := Access.RV,
            quality := Quality.PERSISTENT },
          { id := 0x0011, value := .Uint8 0, access := Access.RV,
            quality := Quality.PERSISTENT },
          { id := 0x0002, value := .Uint8 0, access := Access.RV,
            quality := Quality.PERSISTENT },
          { id := 0x0003, value := .Uint8 254, access := Access.RV,
            quality := Quality.PERSISTENT },
          { id := 0x4000, value := .Uint8 0, access := Access.RV,
            quality := Quality.PERSISTENT } ],
      dirty := [], feature_map := 0, cluster_revision := 1 } }

/-- The concrete cluster `OnOffCluster::new` produces (see
`onoff_new_eq`). -/
def onOffDefault : OnOffCluster :=
  { base :=
    { id := 0x0006,
      attributes :=
        [ { id := 0x0000, value := .Bool false, access := Access.RV,
            quality := Quality.PERSISTENT } ],
      dirty := [], feature_map := 0, cluster_revision := 1 },
    callbacks := [],
    update_state := { on_off := false, is_fresh := false } }

/-- The shape invariant of an On/Off cluster: its base holds exactly the
OnOff attribute, with a bool value and the metadata `new` installed. -/
def OnOffInv (s : OnOffCluster) : Prop :=
  ∃ b : Bool, s.base.attributes =
    [{ id := OnOff.Attributes.OnOff, value := .Bool b, access := Access.RV,
       quality := Quality.PERSISTENT }]

/-- The base cluster after the On/Off attribute of an invariant-shaped
state is overwritten with the bool `v`. -/
def onOffWritten (s : OnOffCluster) (v : Bool) : Cluster :=
  { s.base with
    attributes :=
      [{ id := OnOff.Attributes.OnOff, value := .Bool v, access := Access.RV,
         quality := Quality.PERSISTENT }],
    dirty := s.base.dirty ++ [OnOff.Attributes.OnOff] }

/-- An access request that grants every privilege. -/
def allowAll (a : Access) : Bool := true

/-- The default On/Off cluster after an asynchronous
`update_state(true)`: shared state `{ on_off := true, is_fresh := true }`
while the stored attribute is still `Bool false`. -/
def onOffFresh : OnOffCluster :=
  { onOffDefault with update_state := { on_off := true, is_fresh := true } }

/-- A Toggle request (command id 2); the Toggle arm ignores the payload. -/
def toggleReq : CommandReq :=
  { path := { endpoint := none, cluster := OnOff.ID, leaf := some 2 },
    data := .nullval }

/-- An On request (command id 1). -/
def onReq : CommandReq :=
  { path := { endpoint := none, cluster := OnOff.ID, leaf := some 1 },
    data := .nullval }

/-- An Off request (command id 0). -/
def offReq : CommandReq :=
  { path := { endpoint := none, cluster := OnOff.ID, leaf := some 0 },
    data := .nullval }

/-- A request whose command id 0xFF no On/Off command carries. -/
def unknownOnOffReq : CommandReq :=
  { path := { endpoint := none, cluster := OnOff.ID, leaf := some 0xFF },
    data := .nullval }

/-- A request whose command id 0xFF no Level Control command carries. -/
def unknownLCReq : CommandReq :=
  { path := { endpoint := none, cluster := LevelControl.ID, leaf := some 0xFF },
    data := .nullval }

/-- `MoveToLevel(level=250, tt=0, mask=0, override=0)`. -/
def moveTo250Req : CommandReq :=
  { path := { endpoint := none, cluster := LevelControl.ID, leaf := some 0 },
    data := .container [.u8val 250, .u16val 0, .u8val 0, .u8val 0] }

/-- `MoveToLevel(level=255, tt=0, mask=0, override=0)`. -/
def moveTo255Req : CommandReq :=
  { path := { endpoint := none, cluster := LevelControl.ID, leaf := some 0 },
    data := .container [.u8val 255, .u16val 0, .u8val 0, .u8val 0] }

/-- `Step(Up, size=10, tt=0, mask=0, override=0)` (command id 2). -/
def stepUpReq : CommandReq :=
  { path := { endpoint := none, cluster := LevelControl.ID, leaf := some 2 },
    data := .container [.u8val 0, .u8val 10, .u16val 0, .u8val 0, .u8val 0] }

/-- `Stop(mask=0, override=0)` (command id 3). -/
def stopReq : CommandReq :=
  { path := { endpoint := none, cluster := LevelControl.ID, leaf := some 3 },
    data := .container [.u8val 0, .u8val 0] }

/-- The Level Control cluster after `MoveToLevel(250)`: CurrentLevel holds
250 while MaxLevel holds its default 254. -/
def lcAt250 : LevelControlCluster :=
  (lcDefault.handle_command moveTo250Req).1

/-- What one Toggle dispatch does, and that a second one undoes it:
the handler succeeds, completes the transaction, fires the Toggle
callbacks, writes the negation of the stored value (a non-bool stored
value read as false), and dispatching Toggle again restores the stored
value. -/
def ToggleSpec (s : OnOffCluster) (req : CommandReq) : Prop :=
  ∃ v o o2,
    s.base.read_attribute_raw OnOff.Attributes.OnOff = some v ∧
    OnOffCluster.handle_command s req = some o ∧
    o.result = .err .Sucess ∧
    o.completed = true ∧
    o.invoked = s.run_callback .Toggle ∧
    o.cluster.base.read_attribute_raw OnOff.Attributes.OnOff =
      some (.Bool (!(attrAsBool v))) ∧
    OnOffCluster.handle_command o.cluster req = some o2 ∧
    o2.result = .err .Sucess ∧
    o2.cluster.base.read_attribute_raw OnOff.Attributes.OnOff = some v

/-- What one On dispatch and one Off dispatch do: each succeeds, completes
the transaction and fires exactly the callbacks registered under the
command; On writes `Bool true` (with a dirty marker) precisely when the
stored value is false and otherwise leaves the cluster untouched; Off is
symmetric. -/
def OnOffWriteSpec (s : OnOffCluster) (reqOn reqOff : CommandReq) : Prop :=
  ∃ b : Bool,
    s.base.read_attribute_raw OnOff.Attributes.OnOff = some (.Bool b) ∧
    (∃ o, OnOffCluster.handle_command s reqOn = some o ∧
      o.result = .err .Sucess ∧ o.completed = true ∧
      o.invoked = s.run_callback .On ∧
      (b = false →
        o.cluster.base.read_attribute_raw OnOff.Attributes.OnOff =
          some (.Bool true) ∧
        o.cluster.base.dirty = s.base.dirty ++ [OnOff.Attributes.OnOff]) ∧
      (b = true → o.cluster = s)) ∧
    (∃ o, OnOffCluster.handle_command s reqOff = some o ∧
      o.result = .err .Sucess ∧ o.completed = true ∧
      o.invoked = s.run_callback .Off ∧
      (b = true →
        o.cluster.base.read_attribute_raw OnOff.Attributes.OnOff =
          some (.Bool false) ∧
        o.cluster.base.dirty = s.base.dirty ++ [OnOff.Attributes.OnOff]) ∧
      (b = false → o.cluster = s))

theorem lc_new_eq : LevelControlCluster.new = Except.ok lcDefault := rfl

theorem onoff_new_eq : OnOffCluster.new = Except.ok onOffDefault := rfl

theorem onoff_read_raw (s : OnOffCluster) (b : Bool)
    (h : s.base.attributes =
      [{ id := OnOff.Attributes.OnOff, value := .Bool b, access := Access.RV,
         quality := Quality.PERSISTENT }]) :
    s.base.read_attribute_raw OnOff.Attributes.OnOff = some (.Bool b) := by
  unfold Cluster.read_attribute_raw Cluster.get_attribute
  rw [h]
  rfl

theorem onoff_write_raw (s : OnOffCluster) (b v : Bool)
    (h : s.base.attributes =
      [{ id := OnOff.Attributes.OnOff, value := .Bool b, access := Access.RV,
         quality := Quality.PERSISTENT }]) :
    s.base.write_attribute_raw OnOff.Attributes.OnOff (.Bool v) =
      Except.ok { s.base with
        attributes :=
          [{ id := OnOff.Attributes.OnOff, value := .Bool v, access := Access.RV,
             quality := Quality.PERSISTENT }],
        dirty := s.base.dirty ++ [OnOff.Attributes.OnOff] } := by
  unfold Cluster.write_attribute_raw Cluster.get_attribute
  rw [h]
  rfl

theorem onoff_toggle_spec (s : OnOffCluster) (req : CommandReq) (n : Nat) (b : Bool)
    (hleaf : req.path.leaf = some n)
    (hn : OnOff.Commands.from_u32 n = some .Toggle)
    (h : s.base.attributes =
      [{ id := OnOff.Attributes.OnOff, value := .Bool b, access := Access.RV,
         quality := Quality.PERSISTENT }]) :
    OnOffCluster.handle_command s req = some
      { cluster := { s with base := onOffWritten s (!b) },
        result := .err .Sucess,
        invoked := s.run_callback .Toggle,
        completed := true } := by
  simp only [OnOffCluster.handle_command, hleaf, hn, onoff_read_raw s b h,
    onoff_write_raw s b (!b) h]
  rfl

theorem onoff_on_spec (s : OnOffCluster) (req : CommandReq) (n : Nat) (b : Bool)
    (hleaf : req.path.leaf = some n)
    (hn : OnOff.Commands.from_u32 n = some .On)
    (h : s.base.attributes =
      [{ id := OnOff.Attributes.OnOff, value := .Bool b, access := Access.RV,
         quality := Quality.PERSISTENT }]) :
    OnOffCluster.handle_command s req = some
      { cluster := if b then s else { s with base := onOffWritten s true },
        result := .err .Sucess,
        invoked := s.run_callback .On,
        completed := true } := by
  cases b
  · simp only [OnOffCluster.handle_command, hleaf, hn, onoff_read_raw s false h,
      onoff_write_raw s false true h]
    rfl
  · simp only [OnOffCluster.handle_command, hleaf, hn, onoff_read_raw s true h]
    rfl

theorem onoff_off_spec (s : OnOffCluster) (req : CommandReq) (n : Nat) (b : Bool)
    (hleaf : req.path.leaf = some n)
    (hn : OnOff.Commands.from_u32 n = some .Off)
    (h : s.base.attributes =
      [{ id := OnOff.Attributes.OnOff, value := .Bool b, access := Access.RV,
         quality := Quality.PERSISTENT }]) :
    OnOffCluster.handle_command s req = some
      { cluster := if b then { s with base := onOffWritten s false } else s,
        result := .err .Sucess,
        invoked := s.run_callback .Off,
        completed := true } := by
  cases b
  · simp only [OnOffCluster.handle_command, hleaf, hn, onoff_read_raw s false h]
    rfl
  · simp only [OnOffCluster.handle_command, hleaf, hn, onoff_read_raw s true h,
      onoff_write_raw s true false h]
    rfl

theorem onoff_cmd_preserves_inv (s : OnOffCluster) (req : CommandReq)
    (o : HandleOutcome) (hstep : OnOffCluster.handle_command s req = some o)
    (hinv : OnOffInv s) : OnOffInv o.cluster := by
  obtain ⟨b, h⟩ := hinv
  rcases hleaf : req.path.leaf with _ | n
  · simp only [OnOffCluster.handle_command, hleaf] at hstep
    injection hstep with h2
    subst h2
    exact ⟨b, h⟩
  · rcases hn : OnOff.Commands.from_u32 n with _ | cmd
    · simp only [OnOffCluster.handle_command, hleaf, hn] at hstep
      injection hstep with h2
      subst h2
      exact ⟨b, h⟩
    · cases cmd
      · rw [onoff_off_spec s req n b hleaf hn h] at hstep
        injection hstep with h2
        subst h2
        cases b
        · exact ⟨false, h⟩
        · exact ⟨false, rfl⟩
      · rw [onoff_on_spec s req n b hleaf hn h] at hstep
        injection hstep with h2
        subst h2
        cases b
        · exact ⟨true, rfl⟩
        · exact ⟨true, h⟩
      · rw [onoff_toggle_spec s req n b hleaf hn h] at hstep
        injection hstep with h2
        subst h2
        exact ⟨!b, rfl⟩

theorem onoff_reachable_inv (s : OnOffCluster) (hr : OnOffReachable s) :
    OnOffInv s := by
  induction hr with
  | new s hnew =>
    rw [onoff_new_eq] at hnew
    injection hnew with h2
    subst h2
    exact ⟨false, rfl⟩
  | step s t hs ht ih =>
    cases ht with
    | cmd req o hcmd => exact onoff_cmd_preserves_inv s req o hcmd ih
    | add_callback c => exact ih
    | update b => exact ih

/-- Every non-panicking `handle_command` invocation leaves the shared
state block and the callback registrations untouched: only the base
cluster ever changes. -/
theorem onoff_cmd_shape (s : OnOffCluster) (req : CommandReq)
    (o : HandleOutcome) (hstep : OnOffCluster.handle_command s req = some o) :
    o.cluster.update_state = s.update_state ∧
    o.cluster.callbacks = s.callbacks := by
  simp only [OnOffCluster.handle_command] at hstep
  repeat' split at hstep
  all_goals first
    | exact Option.noConfusion hstep
    | (injection hstep with h2; subst h2; exact ⟨rfl, rfl⟩)

/-- C3: for every reachable On/Off cluster state, handling a Toggle
request writes the negation of the stored OnOff value (a non-bool stored
value treated as false), runs the Toggle callbacks, completes the
transaction, returns Success, and a second Toggle restores the initial
stored value. -/
theorem toggle_negates_and_twice_is_identity (s : OnOffCluster)
    (req : CommandReq) (hreach : OnOffReachable s)
    (hleaf : req.path.leaf = some 2) : ToggleSpec s req := by
  obtain ⟨b, h⟩ := onoff_reachable_inv s hreach
  have h1 := onoff_toggle_spec s req 2 b hleaf rfl h
  have h2 := onoff_toggle_spec { s with base := onOffWritten s (!b) }
    req 2 (!b) hleaf rfl rfl
  refine ⟨.Bool b, _, _, onoff_read_raw s b h, h1, rfl, rfl, rfl, ?_, h2,
    rfl, ?_⟩
  · exact onoff_read_raw _ (!b) rfl
  · have h3 := onoff_read_raw
      { { s with base := onOffWritten s (!b) } with
        base := onOffWritten { s with base := onOffWritten s (!b) } (!(!b)) }
      (!(!b)) rfl
    simpa using h3

/-- C4: for every reachable On/Off cluster state, the On command writes
`Bool true` to the stored OnOff attribute exactly when its current value
is false (a no-op on the attribute store otherwise), always fires the On
callbacks once, completes the transaction and returns Success; Off is
symmetric with false. -/
theorem on_off_conditional_write (s : OnOffCluster) (reqOn reqOff : CommandReq)
    (hreach : OnOffReachable s) (hOn : reqOn.path.leaf = some 1)
    (hOff : reqOff.path.leaf = some 0) : OnOffWriteSpec s reqOn reqOff := by
  obtain ⟨b, h⟩ := onoff_reachable_inv s hreach
  refine ⟨b, onoff_read_raw s b h,
    ⟨_, onoff_on_spec s reqOn 1 b hOn rfl h, rfl, rfl, rfl, ?_, ?_⟩,
    ⟨_, onoff_off_spec s reqOff 0 b hOff rfl h, rfl, rfl, rfl, ?_, ?_⟩⟩
  · intro hb
    subst hb
    exact ⟨onoff_read_raw _ true rfl, rfl⟩
  · intro hb
    subst hb
    rfl
  · intro hb
    subst hb
    exact ⟨onoff_read_raw _ false rfl, rfl⟩
  · intro hb
    subst hb
    rfl

/-- C5: a read of a present, readable, access-allowed, non-system,
non-Custom attribute encodes the shared-state on/off value when
`is_fresh` is set and the stored attribute value otherwise. -/
theorem read_attribute_prefers_fresh_state (s : OnOffCluster)
    (allow : Access → Bool) (attr_id : Nat) (a : Attribute)
    (hget : s.base.get_attribute attr_id = some a)
    (hread : a.access.read = true) (hallow : allow a.access = true)
    (hsys : Attribute.is_system_attr attr_id = false)
    (hcustom : a.value ≠ AttrValue.Custom) :
    s.read_attribute allow attr_id =
      .value (if s.update_state.is_fresh then .Bool s.update_state.on_off
              else a.value) := by
  simp only [OnOffCluster.read_attribute, hget, hread, hallow, hsys, hcustom]
  cases hf : s.update_state.is_fresh <;> simp [hf, hcustom]

/-- C5 witness: with shared state `{on_off := true, is_fresh := true}`
and stored attribute `Bool false`, the read encodes `true`. -/
theorem read_attribute_prefers_fresh_state_witness :
    onOffFresh.base.get_attribute OnOff.Attributes.OnOff =
      some { id := OnOff.Attributes.OnOff, value := .Bool false,
             access := Access.RV, quality := Quality.PERSISTENT } ∧
    onOffFresh.read_attribute allowAll OnOff.Attributes.OnOff =
      .value (.Bool true) :=
  ⟨rfl,
    read_attribute_prefers_fresh_state onOffFresh allowAll
      OnOff.Attributes.OnOff
      { id := OnOff.Attributes.OnOff, value := .Bool false,
        access := Access.RV, quality := Quality.PERSISTENT }
      rfl rfl rfl rfl (by decide)⟩

/-- C9: `update_state` always sets `is_fresh`; no On/Off cluster step
(command dispatch, callback registration or shared-state update) ever
clears an `is_fresh` that is set; and while `is_fresh` is set, an
access-allowed read of the (non-system, non-Custom) OnOff attribute
keeps encoding the shared-state value. -/
theorem is_fresh_never_cleared :
    (∀ (u : UpdateData) (b : Bool), (u.update_state b).is_fresh = true) ∧
    (∀ s t : OnOffCluster, OnOffStep s t → s.update_state.is_fresh = true →
      t.update_state.is_fresh = true) ∧
    (∀ (s : OnOffCluster) (allow : Access → Bool) (a : Attribute),
      s.update_state.is_fresh = true →
      s.base.get_attribute OnOff.Attributes.OnOff = some a →
      a.access.read = true → allow a.access = true →
      a.value ≠ AttrValue.Custom →
      s.read_attribute allow OnOff.Attributes.OnOff =
        .value (.Bool s.update_state.on_off)) := by
  refine ⟨fun u b => rfl, ?_, ?_⟩
  · intro s t hstep hf
    cases hstep with
    | cmd req o hcmd =>
      rw [(onoff_cmd_shape s req o hcmd).1]
      exact hf
    | add_callback c => exact hf
    | update b => rfl
  · intro s allow a hf hget hread hallow hcustom
    simp only [OnOffCluster.read_attribute, hget, hread, hallow, hf, hcustom]
    simp [hcustom]
    decide

/-- C9 witness: after injecting `{on_off := true, is_fresh := true}`, a
callback-registration step keeps `is_fresh` set, and the OnOff read still
encodes the shared-state value `true`. -/
theorem is_fresh_never_cleared_witness :
    onOffFresh.update_state.is_fresh = true ∧
    (onOffFresh.add_callback .On).update_state.is_fresh = true ∧
    onOffFresh.read_attribute allowAll OnOff.Attributes.OnOff =
      .value (.Bool true) :=
  ⟨rfl,
    is_fresh_never_cleared.2.1 onOffFresh (onOffFresh.add_callback .On)
      (OnOffStep.add_callback onOffFresh .On) rfl,
    is_fresh_never_cleared.2.2 onOffFresh allowAll
      { id := OnOff.Attributes.OnOff, value := .Bool false,
        access := Access.RV, quality := Quality.PERSISTENT }
      rfl rfl rfl rfl (by decide)⟩

/-- C10: in every reachable On/Off cluster state the OnOff attribute is
present in the base cluster, so the raw read the Off, On and Toggle arms
unwrap is always `some`, and `handle_command` never reaches the panic
(`none`) outcome, whatever the request. -/
theorem onoff_unwrap_never_panics (s : OnOffCluster)
    (hreach : OnOffReachable s) :
    (s.base.read_attribute_raw OnOff.Attributes.OnOff).isSome = true ∧
    ∀ req : CommandReq, (OnOffCluster.handle_command s req).isSome = true := by
  obtain ⟨b, h⟩ := onoff_reachable_inv s hreach
  constructor
  · rw [onoff_read_raw s b h]
    rfl
  · intro req
    rcases hleaf : req.path.leaf with _ | n
    · simp only [OnOffCluster.handle_command, hleaf]
      rfl
    · rcases hn : OnOff.Commands.from_u32 n with _ | cmd
      · simp only [OnOffCluster.handle_command, hleaf, hn]
        rfl
      · cases cmd
        · rw [onoff_off_spec s req n b hleaf hn h]
          rfl
        · rw [onoff_on_spec s req n b hleaf hn h]
          rfl
        · rw [onoff_toggle_spec s req n b hleaf hn h]
          rfl

/-- C10 witness: the freshly constructed cluster is reachable, its raw
OnOff read is `some`, and dispatching a Toggle request does not panic. -/
theorem onoff_unwrap_never_panics_witness :
    (onOffDefault.base.read_attribute_raw OnOff.Attributes.OnOff).isSome = true ∧
    (OnOffCluster.handle_command onOffDefault toggleReq).isSome = true :=
  ⟨(onoff_unwrap_never_panics onOffDefault
      (OnOffReachable.new onOffDefault onoff_new_eq)).1,
    (onoff_unwrap_never_panics onOffDefault
      (OnOffReachable.new onOffDefault onoff_new_eq)).2 toggleReq⟩

/-- C3 witness: on the freshly constructed cluster (stored OnOff false),
the concrete Toggle request satisfies the toggle specification. -/
theorem toggle_negates_and_twice_is_identity_witness :
    toggleReq.path.leaf = some 2 ∧ ToggleSpec onOffDefault toggleReq :=
  ⟨rfl,
    toggle_negates_and_twice_is_identity onOffDefault toggleReq
      (OnOffReachable.new onOffDefault onoff_new_eq) rfl⟩

/-- C4 witness: on the freshly constructed cluster, the concrete On and
Off requests satisfy the conditional-write specification. -/
theorem on_off_conditional_write_witness :
    onReq.path.leaf = some 1 ∧ offReq.path.leaf = some 0 ∧
    OnOffWriteSpec onOffDefault onReq offReq :=
  ⟨rfl, rfl,
    on_off_conditional_write onOffDefault onReq offReq
      (OnOffReachable.new onOffDefault onoff_new_eq) rfl rfl⟩

/-- C6: a request whose path leaf is missing, or whose command id maps to
no known command, is answered with UnsupportedCommand by both clusters and
leaves the cluster state (attributes, dirty markers, callbacks, shared
state) unchanged. -/
theorem unknown_command_unsupported (c : LevelControlCluster)
    (s : OnOffCluster) (reqL reqO : CommandReq)
    (hL : reqL.path.leaf = none ∨
      ∃ n, reqL.path.leaf = some n ∧ LevelControl.Commands.from_u32 n = none)
    (hO : reqO.path.leaf = none ∨
      ∃ n, reqO.path.leaf = some n ∧ OnOff.Commands.from_u32 n = none) :
    LevelControlCluster.handle_command c reqL =
      (c, .err .UnsupportedCommand) ∧
    OnOffCluster.handle_command s reqO = some
      { cluster := s, result := .err .UnsupportedCommand,
        invoked := [], completed := false } := by
  constructor
  · rcases hL with h | ⟨n, h1, h2⟩
    · simp only [LevelControlCluster.handle_command, h]
    · simp only [LevelControlCluster.handle_command, h1, h2]
  · rcases hO with h | ⟨n, h1, h2⟩
    · simp only [OnOffCluster.handle_command, h]
    · simp only [OnOffCluster.handle_command, h1, h2]

/-- C6 witness: command id 0xFF is rejected by both clusters with no
state change. -/
theorem unknown_command_unsupported_witness :
    LevelControlCluster.handle_command lcDefault unknownLCReq =
      (lcDefault, .err .UnsupportedCommand) ∧
    OnOffCluster.handle_command onOffDefault unknownOnOffReq = some
      { cluster := onOffDefault, result := .err .UnsupportedCommand,
        invoked := [], completed := false } :=
  unknown_command_unsupported lcDefault onOffDefault unknownLCReq
    unknownOnOffReq (Or.inr ⟨0xFF, rfl, rfl⟩) (Or.inr ⟨0xFF, rfl, rfl⟩)

/-- C1: the claim fails on the code.  With CurrentLevel 250 and MaxLevel
254, dispatching `Step(Up, size=10)` returns Success but leaves
CurrentLevel at 250 (`handle_step` never calls `step_level`; the call is
commented out), and `step_level` itself would wrap the u8 sum 250+10
around to 4 rather than clamp to 254. -/
theorem step_up_neither_clamps_nor_moves :
    lcAt250.base.read_attribute_raw LevelControl.Attributes.CurrentLevel =
      some (.Uint8 250) ∧
    lcAt250.base.read_attribute_raw LevelControl.Attributes.MaxLevel =
      some (.Uint8 254) ∧
    LevelControlCluster.handle_command lcAt250 stepUpReq =
      (lcAt250, .err .Sucess) ∧
    (lcAt250.step_level .Up 10).1.base.read_attribute_raw
      LevelControl.Attributes.CurrentLevel = some (.Uint8 4) :=
  ⟨rfl, rfl, rfl, rfl⟩

/-- C2: the claim fails on the code.  On the freshly constructed Level
Control cluster, `MoveToLevel(255)` is accepted and writes CurrentLevel
to 255, above the MaxLevel default 254: the bounds invariant
MinLevel ≤ CurrentLevel ≤ MaxLevel is not maintained. -/
theorem move_to_level_breaks_bounds_invariant :
    (lcDefault.handle_command moveTo255Req).2 = .ok ∧
    (lcDefault.handle_command moveTo255Req).1.base.read_attribute_raw
      LevelControl.Attributes.CurrentLevel = some (.Uint8 255) ∧
    (lcDefault.handle_command moveTo255Req).1.base.read_attribute_raw
      LevelControl.Attributes.MaxLevel = some (.Uint8 254) ∧
    ¬(255 ≤ 254) :=
  ⟨rfl, rfl, rfl, by decide⟩

/-- C7: the claim fails on the code.  `new` never adds a RemainingTime
attribute (id 1), so the write `handle_stop` attempts fails with
AttributeNotFound and the Stop command returns Failure, not Success, with
the cluster unchanged. -/
theorem stop_returns_failure_without_remaining_time :
    lcDefault.base.get_attribute LevelControl.Attributes.RemainingTime =
      none ∧
    LevelControlCluster.handle_command lcDefault stopReq =
      (lcDefault, .err .Failure) :=
  ⟨rfl, rfl⟩

/-- C8 counterexample: the constructed cluster has five attributes, not
seven: neither RemainingTime (id 1) nor Options (id 0x0F) is present. -/
theorem lc_new_lacks_remaining_time_and_options :
    LevelControlCluster.new = Except.ok lcDefault ∧
    lcDefault.base.attributes.length = 5 ∧
    lcDefault.base.get_attribute LevelControl.Attributes.RemainingTime =
      none ∧
    lcDefault.base.get_attribute LevelControl.Attributes.Options = none :=
  ⟨rfl, rfl, rfl, rfl⟩

/-- C8 amended: `LevelControlCluster::new` constructs a cluster of id
0x0008 containing exactly the five attributes CurrentLevel (id 0, default
0), OnLevel (id 0x11, default 0), MinLevel (id 2, default 0), MaxLevel
(id 3, default 254) and StartUpCurrentLevel (id 0x4000, default 0), each
a Uint8 with access RV and quality PERSISTENT, in that order. -/
theorem lc_new_constructs_exactly_five_attributes :
    LevelControlCluster.new = Except.ok lcDefault ∧
    lcDefault.base.id = 0x0008 ∧
    lcDefault.base.attributes =
      [ { id := 0x0000, value := .Uint8 0, access := Access.RV,
          quality := Quality.PERSISTENT },
        { id := 0x0011, value := .Uint8 0, access := Access.RV,
          quality := Quality.PERSISTENT },
        { id := 0x0002, value := .Uint8 0, access := Access.RV,
          quality := Quality.PERSISTENT },
        { id := 0x0003, value := .Uint8 254, access := Access.RV,
          quality := Quality.PERSISTENT },
        { id := 0x4000, value := .Uint8 0, access := Access.RV,
          quality := Quality.PERSISTENT } ] :=
  ⟨rfl, rfl, rfl⟩
